import Mathlib

/-!
# Verification of the Delibot guild resolver and logger bootstrap

Shallow embedding of `app/bot/bot_main.py` and `app/utils/logger.py` from the
delibot repository, together with proofs of the specified properties of
`_resolve_guild`, `on_ready`, `run_bot`, `_coerce_level`,
`_configure_root_logger` and `get_logger`.
-/

namespace Delibot

/-! ## Log records

Python's `logging` levels are integers; records carry a level and the final
formatted message (the `%s` arguments substituted, as `logging` does lazily). -/

inductive LogLevel where
  | debug
  | info
  | warning
  | error
  | critical
deriving DecidableEq, Repr

structure LogRecord where
  level : LogLevel
  msg : String
deriving DecidableEq, Repr

/-- Python substring containment (`sub in s`), on code points. -/
def StrContains (s sub : String) : Prop := sub.data <:+: s.data

instance (s sub : String) : Decidable (StrContains s sub) :=
  List.decidableInfix sub.data s.data

/-! ## Data model of the chat-library objects used by `bot_main.py` -/

/-- Permissions triple that `ch.permissions_for(guild.me)` yields. -/
structure Permissions where
  view_channel : Bool
  read_message_history : Bool
  send_messages : Bool
deriving Repr

/-- A text channel; `perms_for_me` is the value `permissions_for(guild.me)` returns. -/
structure TextChannel where
  name : String
  perms_for_me : Permissions
deriving Repr

/-- Model of `discord.Guild`: id, display name, text channels. -/
structure Guild where
  id : Nat
  name : String
  text_channels : List TextChannel
deriving Repr

/-- The exceptions `bot.fetch_guild` may raise, as classified by
`_resolve_guild`: `discord.Forbidden`, `discord.NotFound`,
`discord.HTTPException` (carrying its message), or any other exception type
(`unclassified`), which the resolver does not catch. -/
inductive FetchExc where
  | forbidden
  | notFound
  | httpException (msg : String)
  | unclassified (msg : String)
deriving DecidableEq, Repr

/-- The slice of `commands.Bot` that `_resolve_guild` and `on_ready` consume:
`bot.user`, the local cache lookup `bot.get_guild` and the remote fetch
`bot.fetch_guild` (which either returns a guild or raises). -/
structure Bot where
  user : String
  get_guild : Nat → Option Guild
  fetch_guild : Nat → Except FetchExc Guild

/-! ## `_resolve_guild` (bot_main.py lines 28-42) -/

/-- Result of one `_resolve_guild` call: the outcome (`.error e` when an
uncaught exception propagates, otherwise `.ok (some g)` or `.ok none`),
the log records emitted during the call, and whether the remote fetch ran. -/
structure ResolveResult where
  outcome : Except FetchExc (Option Guild)
  logs : List LogRecord
  fetchCalled : Bool
deriving Repr

/-- Embedding of `_resolve_guild(bot, guild_id)`: cache first; on miss fetch, catching
`Forbidden`, `NotFound` and `HTTPException` with a WARNING log and a `None`
result; any other exception propagates. -/
def _resolve_guild (bot : Bot) (guild_id : Nat) : ResolveResult :=
  match bot.get_guild guild_id with
  | some guild => ⟨.ok (some guild), [], false⟩
  | none =>
    match bot.fetch_guild guild_id with
    | .ok g => ⟨.ok (some g), [], true⟩
    | .error .forbidden =>
      ⟨.ok none,
        [⟨.warning, "Forbidden to fetch guild " ++ toString guild_id ++
          "; is the bot in that server?"⟩], true⟩
    | .error .notFound =>
      ⟨.ok none,
        [⟨.warning, "Guild " ++ toString guild_id ++
          " not found; is the ID correct?"⟩], true⟩
    | .error (.httpException e) =>
      ⟨.ok none,
        [⟨.warning, "Error fetching guild " ++ toString guild_id ++ ": " ++ e⟩],
        true⟩
    | .error (.unclassified m) => ⟨.error (.unclassified m), [], true⟩

/-- Concrete bot whose fetch always raises `Forbidden` (cache empty). -/
def botForbidden : Bot :=
  ⟨"delibot#1", fun _ => none, fun _ => .error .forbidden⟩

/-- Concrete bot whose fetch raises an `HTTPException` (cache empty). -/
def botHttpErr : Bot :=
  ⟨"delibot#1", fun _ => none, fun _ => .error (.httpException "503 service unavailable")⟩

/-- Concrete bot whose fetch raises an unclassified exception (cache empty). -/
def botUnclassified : Bot :=
  ⟨"delibot#1", fun _ => none, fun _ => .error (.unclassified "ValueError")⟩

/-- Concrete guild used by witnesses. -/
def guildW : Guild := ⟨42, "TestGuild", [⟨"general", ⟨true, true, true⟩⟩]⟩

/-- Concrete bot whose cache holds `guildW` at id 42. -/
def botCached : Bot :=
  ⟨"delibot#1", fun gid => if gid = 42 then some guildW else none,
    fun _ => .error .forbidden⟩

/-- A string contains its middle append component. -/
lemma strContains_middle (p mid q : String) : StrContains (p ++ mid ++ q) mid := by
  simp only [StrContains, String.data_append]
  exact List.infix_append p.data mid.data q.data

/-- A string contains its final append component. -/
lemma strContains_tail (p mid : String) : StrContains (p ++ mid) mid := by
  simp only [StrContains, String.data_append]
  exact ⟨p.data, [], by simp⟩

/-- Substring containment survives appending on the right. -/
lemma strContains_append_right (s q sub : String) (h : StrContains s sub) :
    StrContains (s ++ q) sub := by
  simp only [StrContains, String.data_append] at h ⊢
  obtain ⟨u, v, huv⟩ := h
  exact ⟨u, v ++ q.data, by rw [← huv]; simp⟩

/-- C1: for a guild id absent from the cache whose fetch fails with one of the
three classified causes, `_resolve_guild` returns `None` without propagating
an exception, and the single emitted record is a WARNING containing the guild
id — and, in the `HTTPException` case, also the underlying error message. -/
theorem resolve_guild_classified_failure (bot : Bot) (gid : Nat)
    (hc : bot.get_guild gid = none) (e : FetchExc)
    (hf : bot.fetch_guild gid = .error e)
    (hcl : e = .forbidden ∨ e = .notFound ∨ ∃ m, e = .httpException m) :
    (_resolve_guild bot gid).outcome = .ok none ∧
    (_resolve_guild bot gid).logs.length = 1 ∧
    (∀ r ∈ (_resolve_guild bot gid).logs,
      r.level = .warning ∧ StrContains r.msg (toString gid)) ∧
    (∀ m, e = .httpException m →
      ∀ r ∈ (_resolve_guild bot gid).logs, StrContains r.msg m) := by
  rcases hcl with h | h | ⟨m, h⟩ <;> subst h <;>
    refine ⟨by simp [_resolve_guild, hc, hf], by simp [_resolve_guild, hc, hf], ?_, ?_⟩
  · intro r hr
    simp only [_resolve_guild, hc, hf, List.mem_singleton] at hr
    subst hr
    exact ⟨rfl, strContains_middle "Forbidden to fetch guild " (toString gid)
      "; is the bot in that server?"⟩
  · intro m hm
    cases hm
  · intro r hr
    simp only [_resolve_guild, hc, hf, List.mem_singleton] at hr
    subst hr
    exact ⟨rfl, strContains_middle "Guild " (toString gid)
      " not found; is the ID correct?"⟩
  · intro m hm
    cases hm
  · intro r hr
    simp only [_resolve_guild, hc, hf, List.mem_singleton] at hr
    subst hr
    exact ⟨rfl, strContains_append_right _ m _
      (strContains_middle "Error fetching guild " (toString gid) ": ")⟩
  · intro m' hm' r hr
    cases hm'
    simp only [_resolve_guild, hc, hf, List.mem_singleton] at hr
    subst hr
    exact strContains_tail ("Error fetching guild " ++ toString gid ++ ": ") m

/-- Witness for C1 at the concrete bot `botForbidden`, guild id 5. -/
theorem resolve_guild_classified_failure_witness :
    (_resolve_guild botForbidden 5).outcome = .ok none ∧
    (_resolve_guild botForbidden 5).logs.length = 1 ∧
    (∀ r ∈ (_resolve_guild botForbidden 5).logs,
      r.level = .warning ∧ StrContains r.msg (toString 5)) ∧
    (∀ m, FetchExc.forbidden = .httpException m →
      ∀ r ∈ (_resolve_guild botForbidden 5).logs, StrContains r.msg m) :=
  resolve_guild_classified_failure botForbidden 5 rfl .forbidden rfl (Or.inl rfl)

/-- C2: for a guild id absent from the cache whose fetch raises an exception
outside the three classified causes, `_resolve_guild` does not catch it: the
exception propagates and no `None` result (and no log) is produced. -/
theorem resolve_guild_unclassified_propagates (bot : Bot) (gid : Nat)
    (hc : bot.get_guild gid = none) (m : String)
    (hf : bot.fetch_guild gid = .error (.unclassified m)) :
    (_resolve_guild bot gid).outcome = .error (.unclassified m) ∧
    (_resolve_guild bot gid).logs = [] := by
  simp [_resolve_guild, hc, hf]

/-- Witness for C2 at the concrete bot `botUnclassified`, guild id 7. -/
theorem resolve_guild_unclassified_propagates_witness :
    (_resolve_guild botUnclassified 7).outcome = .error (.unclassified "ValueError") ∧
    (_resolve_guild botUnclassified 7).logs = [] :=
  resolve_guild_unclassified_propagates botUnclassified 7 rfl "ValueError" rfl

/-- C3: for a guild id present in the local cache, `_resolve_guild` returns the
cached guild immediately, emits no log, and never invokes the remote fetch. -/
theorem resolve_guild_cache_hit (bot : Bot) (gid : Nat) (g : Guild)
    (hc : bot.get_guild gid = some g) :
    _resolve_guild bot gid = ⟨.ok (some g), [], false⟩ := by
  simp [_resolve_guild, hc]

/-- Witness for C3 at the concrete bot `botCached`, guild id 42. -/
theorem resolve_guild_cache_hit_witness :
    _resolve_guild botCached 42 = ⟨.ok (some guildW), [], false⟩ :=
  resolve_guild_cache_hit botCached 42 guildW rfl

/-- C9: every `_resolve_guild` call emits exactly one log record when it ends
on a classified failure path (result `None`) and exactly zero when it returns
a guild handle, whether from the cache or from a successful fetch. -/
theorem resolve_guild_log_count (bot : Bot) (gid : Nat) :
    ((_resolve_guild bot gid).outcome = .ok none →
      (_resolve_guild bot gid).logs.length = 1) ∧
    (∀ g : Guild, (_resolve_guild bot gid).outcome = .ok (some g) →
      (_resolve_guild bot gid).logs.length = 0) := by
  unfold _resolve_guild
  cases hc : bot.get_guild gid with
  | some g => exact ⟨fun h => by simp at h, fun g h => rfl⟩
  | none =>
    cases hf : bot.fetch_guild gid with
    | ok g => exact ⟨fun h => by simp at h, fun g h => rfl⟩
    | error e =>
      cases e with
      | forbidden => exact ⟨fun _ => rfl, fun g h => by simp at h⟩
      | notFound => exact ⟨fun _ => rfl, fun g h => by simp at h⟩
      | httpException m => exact ⟨fun _ => rfl, fun g h => by simp at h⟩
      | unclassified m => exact ⟨fun h => by simp at h, fun g h => by simp at h⟩

/-- Witness for C9: one record on the failure path of `botHttpErr`, zero on the
cache-hit path of `botCached`. -/
theorem resolve_guild_log_count_witness :
    (_resolve_guild botHttpErr 9).logs.length = 1 ∧
    (_resolve_guild botCached 42).logs.length = 0 :=
  ⟨(resolve_guild_log_count botHttpErr 9).1 rfl,
   (resolve_guild_log_count botCached 42).2 guildW rfl⟩

/-! ## `on_ready` (bot_main.py lines 102-124) -/

/-- Exceptions the `on_ready` handler can raise: the `AttributeError` from
dereferencing a `None` guild (`guild.text_channels`), or an exception
propagated out of `_resolve_guild`. -/
inductive PyExc where
  | attributeError (msg : String)
  | fetchExc (e : FetchExc)
deriving DecidableEq, Repr

/-- Result of the `on_ready` handler: normal return or a raised exception,
in both cases with the log records emitted up to that point. -/
inductive OnReadyResult where
  | raised (e : PyExc) (logs : List LogRecord)
  | returned (logs : List LogRecord)
deriving DecidableEq, Repr

/-- The record of `LOG.info("Connected as %s", bot.user)`. -/
def connectedRecord (bot : Bot) : LogRecord :=
  ⟨.info, "Connected as " ++ bot.user⟩

/-- The per-channel diagnostic record of the `for ch in guild.text_channels`
loop. -/
def channelRecord (ch : TextChannel) : LogRecord :=
  ⟨.info, "[" ++ ch.name ++ "] view=" ++ toString ch.perms_for_me.view_channel ++
    ", read_history=" ++ toString ch.perms_for_me.read_message_history ++
    ", send=" ++ toString ch.perms_for_me.send_messages⟩

/-- The record of `LOG.info("Connected in server: %s (ID: %s)", ...)`. -/
def connectedInServerRecord (g : Guild) : LogRecord :=
  ⟨.info, "Connected in server: " ++ g.name ++ " (ID: " ++ toString g.id ++ ")"⟩

/-- The record the warning branch at the end of `on_ready` would emit
(`"Configured DISCORD_GUILD_ID=%s but guild could not be resolved"`). -/
def unresolvedWarnRecord (gid : Nat) : LogRecord :=
  ⟨.warning, "Configured DISCORD_GUILD_ID=" ++ toString gid ++
    " but guild could not be resolved"⟩

/-- Message of the `AttributeError` raised by `None.text_channels`. -/
def attributeErrMsg : String :=
  "NoneType object has no attribute text_channels"

/-- Python truthiness of a bound `discord.Guild` object: the class defines
neither `__bool__` nor `__len__`, so a guild object is always truthy. -/
def guildTruthy (_ : Guild) : Bool := true

/-- The `on_ready` handler, for a configured `guild_id` (the value computed by
`create_bot` from `DISCORD_GUILD_ID`). Mirrors the source order: the
`Connected as` info log, the `if not gid: return` guard, guild resolution,
then the channel loop — which dereferences `guild.text_channels` before any
`None` check — then `if guild: ... return` and finally the warning branch. -/
def on_ready (bot : Bot) (guild_id : Option Nat) : OnReadyResult :=
  let logs0 := [connectedRecord bot]
  match guild_id with
  | none => .returned logs0
  | some gid =>
    if gid = 0 then .returned logs0
    else
      let r := _resolve_guild bot gid
      match r.outcome with
      | .error e => .raised (.fetchExc e) (logs0 ++ r.logs)
      | .ok none => .raised (.attributeError attributeErrMsg) (logs0 ++ r.logs)
      | .ok (some guild) =>
        let chLogs := guild.text_channels.map channelRecord
        if guildTruthy guild then
          .returned (logs0 ++ r.logs ++ chLogs ++ [connectedInServerRecord guild])
        else
          .returned (logs0 ++ r.logs ++ chLogs ++ [unresolvedWarnRecord gid])

/-- Two strings with distinct first code points are distinct. -/
lemma string_ne_of_head_ne (s t : String) (h : s.data.head? ≠ t.data.head?) :
    s ≠ t :=
  fun he => h (he ▸ rfl)

/-- On a `None` outcome, the resolver's log list is the single warning of one
of the three classified causes. -/
lemma resolve_guild_logs_of_none (bot : Bot) (gid : Nat)
    (hres : (_resolve_guild bot gid).outcome = .ok none) :
    (_resolve_guild bot gid).logs =
      [⟨.warning, "Forbidden to fetch guild " ++ toString gid ++
        "; is the bot in that server?"⟩] ∨
    (_resolve_guild bot gid).logs =
      [⟨.warning, "Guild " ++ toString gid ++ " not found; is the ID correct?"⟩] ∨
    ∃ m, (_resolve_guild bot gid).logs =
      [⟨.warning, "Error fetching guild " ++ toString gid ++ ": " ++ m⟩] := by
  unfold _resolve_guild at hres ⊢
  revert hres
  cases hc : bot.get_guild gid with
  | some g => intro hres; simp at hres
  | none =>
    cases hf : bot.fetch_guild gid with
    | ok g => intro hres; simp at hres
    | error e =>
      cases e with
      | forbidden => intro _; exact Or.inl rfl
      | notFound => intro _; exact Or.inr (Or.inl rfl)
      | httpException m => intro _; exact Or.inr (Or.inr ⟨m, rfl⟩)
      | unclassified m => intro hres; simp at hres

/-- C4: when a guild id is configured and `_resolve_guild` yields `None`, the
`on_ready` handler raises an `AttributeError` at `guild.text_channels`
(emitting only the connection log and the resolver's warning), and the
warning branch reporting the unresolved guild is unreachable on that path:
no emitted record is that warning record. -/
theorem on_ready_none_guild_raises (bot : Bot) (gid : Nat) (hgz : gid ≠ 0)
    (hres : (_resolve_guild bot gid).outcome = .ok none) :
    on_ready bot (some gid) =
      .raised (.attributeError attributeErrMsg)
        ([connectedRecord bot] ++ (_resolve_guild bot gid).logs) ∧
    ∀ r ∈ [connectedRecord bot] ++ (_resolve_guild bot gid).logs,
      r ≠ unresolvedWarnRecord gid := by
  constructor
  · simp only [on_ready, if_neg hgz]
    rw [hres]
  · intro r hr
    simp only [List.mem_append, List.mem_singleton] at hr
    rcases hr with hr | hr
    · subst hr
      simp [connectedRecord, unresolvedWarnRecord]
    · rcases resolve_guild_logs_of_none bot gid hres with hl | hl | ⟨m, hl⟩ <;>
        rw [hl] at hr <;> simp only [List.mem_singleton] at hr <;> subst hr <;>
        simp only [unresolvedWarnRecord, ne_eq, LogRecord.mk.injEq, not_and] <;>
        intro _ <;> apply string_ne_of_head_ne <;> simp

/-- Witness for C4 at the concrete bot `botForbidden`, guild id 5. -/
theorem on_ready_none_guild_raises_witness :
    on_ready botForbidden (some 5) =
      .raised (.attributeError attributeErrMsg)
        ([connectedRecord botForbidden] ++ (_resolve_guild botForbidden 5).logs) ∧
    ∀ r ∈ [connectedRecord botForbidden] ++ (_resolve_guild botForbidden 5).logs,
      r ≠ unresolvedWarnRecord 5 :=
  on_ready_none_guild_raises botForbidden 5 (by decide) rfl

/-! ## `create_bot` / `run_bot` (bot_main.py lines 72-155) -/

/-- The process environment (`os.environ` plus what `load_dotenv` merged in). -/
abbrev Env := String → Option String

/-- Embedding of `os.getenv(key, default)`. -/
def os_getenv (env : Env) (key dflt : String) : String :=
  (env key).getD dflt

/-- Python `str.strip()`: drop whitespace code points at both ends. -/
def pyStrip (s : String) : String :=
  ⟨((s.data.dropWhile Char.isWhitespace).reverse.dropWhile Char.isWhitespace).reverse⟩

/-- The configuration `create_bot` reads from the environment. -/
structure BotConfig where
  token : String
  cmdPfx : String
  guild_id : Option Nat
deriving Repr

/-- The environment-reading part of `create_bot`: token, command word and
optional guild id (`int(s)` when the string is all digits, else `None`). -/
def create_bot (env : Env) : BotConfig :=
  let token := pyStrip (os_getenv env "DISCORD_TOKEN" "")
  let cmdPfx := pyStrip (os_getenv env "PREFIX" "!")
  let guild_id_str := pyStrip (os_getenv env "DISCORD_GUILD_ID" "")
  let guild_id := if guild_id_str.isNat then guild_id_str.toNat? else none
  ⟨token, cmdPfx, guild_id⟩

/-- Result of `run_bot`: a `SystemExit` with code 1, or the client started
with the given token; both carry the log records emitted. -/
inductive RunBotResult where
  | systemExit (code : Nat) (logs : List LogRecord)
  | started (token : String) (logs : List LogRecord)
deriving DecidableEq, Repr

/-- The `LOG.error` message emitted when the token is missing. -/
def tokenMissingMsg : String :=
  "DISCORD_TOKEN no está definido en el entorno/discord.env"

/-- Embedding of `run_bot()`: create the bot, fail fast with an error log and
`SystemExit(1)` when the token is empty, otherwise start the client. -/
def run_bot (env : Env) : RunBotResult :=
  let cfg := create_bot env
  if cfg.token = "" then .systemExit 1 [⟨.error, tokenMissingMsg⟩]
  else .started cfg.token []

/-- C10: when the token environment value is absent or empty, `run_bot` logs
an error and raises `SystemExit(1)` without starting the client. -/
theorem run_bot_missing_token (env : Env)
    (h : env "DISCORD_TOKEN" = none ∨ env "DISCORD_TOKEN" = some "") :
    run_bot env = .systemExit 1 [⟨.error, tokenMissingMsg⟩] := by
  have ht : pyStrip (os_getenv env "DISCORD_TOKEN" "") = "" := by
    rcases h with h | h <;> simp [os_getenv, h] <;> rfl
  simp [run_bot, create_bot, ht]

/-- Witness for C10 at the empty environment. -/
theorem run_bot_missing_token_witness :
    run_bot (fun _ => none) = .systemExit 1 [⟨.error, tokenMissingMsg⟩] :=
  run_bot_missing_token (fun _ => none) (Or.inl rfl)

/-! ## `app/utils/logger.py` -/

namespace logging

def CRITICAL : Nat := 50
def ERROR : Nat := 40
def WARNING : Nat := 30
def INFO : Nat := 20
def DEBUG : Nat := 10
def NOTSET : Nat := 0

end logging

/-- Embedding of `os.getenv(key, default)` with an optional default (`level` may be `None`). -/
def os_getenv? (env : Env) (key : String) (dflt : Option String) : Option String :=
  match env key with
  | some v => some v
  | none => dflt

/-- Python `str.upper()` on code points. -/
def pyUpper (s : String) : String := ⟨s.data.map Char.toUpper⟩

/-- The `_LEVELS` dict of logger.py, as a lookup function. -/
def _LEVELS (s : String) : Option Nat :=
  if s = "CRITICAL" then some logging.CRITICAL
  else if s = "ERROR" then some logging.ERROR
  else if s = "WARNING" then some logging.WARNING
  else if s = "INFO" then some logging.INFO
  else if s = "DEBUG" then some logging.DEBUG
  else if s = "NOTSET" then some logging.NOTSET
  else none

/-- Embedding of `_coerce_level`: map a string level to a logging constant, INFO default.
`if not level_str` is true for `None` and for the empty string. -/
def _coerce_level (level_str : Option String) : Nat :=
  match level_str with
  | none => logging.INFO
  | some s => if s = "" then logging.INFO else (_LEVELS (pyUpper s)).getD logging.INFO

/-- The two sink varieties `_configure_root_logger` attaches. -/
inductive SinkKind where
  | console
  | file
deriving DecidableEq, Repr

/-- A handler attached to the `delibot` logger: its own level and which sink
it is (`StreamHandler(sys.stdout)` or the rotating file handler). -/
structure Handler where
  level : Nat
  kind : SinkKind
deriving DecidableEq, Repr

/-- State of the process-wide `delibot` logger together with the
`_configure_root_logger._configured` flag. -/
structure LoggerState where
  configured : Bool
  level : Nat
  handlers : List Handler
  propagate : Bool
deriving DecidableEq, Repr

/-- A freshly created `logging.getLogger("delibot")`: level `NOTSET`, no
handlers, propagating, not yet configured. -/
def initialLoggerState : LoggerState := ⟨false, logging.NOTSET, [], true⟩

/-- Embedding of `_configure_root_logger(level)` acting on the logger state, reading
`LOG_LEVEL` from the environment with `level` as the default. -/
def _configure_root_logger (env : Env) (level : Option String)
    (st : LoggerState) : LoggerState :=
  if st.configured then
    let resolved := _coerce_level (os_getenv? env "LOG_LEVEL" level)
    { st with level := resolved,
              handlers := st.handlers.map fun h => { h with level := resolved } }
  else
    let resolved := _coerce_level (os_getenv? env "LOG_LEVEL" level)
    let ch : Handler := ⟨resolved, .console⟩
    let fh : Handler := ⟨resolved, .file⟩
    let st1 : LoggerState := { st with level := resolved, propagate := false }
    let st2 := if st1.handlers.isEmpty
      then { st1 with handlers := st1.handlers ++ [ch, fh] } else st1
    { st2 with configured := true }

/-- Python `name.startswith(pre)` on code points. -/
def strStartsWith (s pre : String) : Bool := pre.data.isPrefixOf s.data

/-- The namespace prefixing inside `get_logger`:
`if not name.startswith("delibot."): name = f"delibot.{name}"`. -/
def prefixed_name (name : String) : String :=
  if strStartsWith name "delibot." then name else "delibot." ++ name

/-- Embedding of `get_logger(name, level)`: configure the root logger, then return the
handle under the prefixed name. -/
def get_logger (env : Env) (name : String) (level : Option String)
    (st : LoggerState) : LoggerState × String :=
  (_configure_root_logger env level st, prefixed_name name)

/-- One `get_logger`/bootstrap call site: the environment at call time, the
requested name and the optional explicit level. -/
structure BootstrapCall where
  env : Env
  name : String
  level : Option String

/-- Run a sequence of `get_logger` calls against the logger state. -/
def runCalls (calls : List BootstrapCall) (st : LoggerState) : LoggerState :=
  calls.foldl (fun s c => (get_logger c.env c.name c.level s).1) st

/-- A configured state stays configured and keeps its sink kinds under one
more bootstrap call. -/
lemma configure_preserves_kinds (env : Env) (level : Option String)
    (st : LoggerState) (hc : st.configured = true) :
    (_configure_root_logger env level st).configured = true ∧
    (_configure_root_logger env level st).handlers.map Handler.kind =
      st.handlers.map Handler.kind := by
  simp [_configure_root_logger, hc, List.map_map, Function.comp]

/-- Sequences of calls preserve configuredness and sink kinds. -/
lemma runCalls_preserves (calls : List BootstrapCall) (st : LoggerState)
    (hc : st.configured = true) :
    (runCalls calls st).configured = true ∧
    (runCalls calls st).handlers.map Handler.kind =
      st.handlers.map Handler.kind := by
  induction calls generalizing st with
  | nil => exact ⟨hc, rfl⟩
  | cons c cs ih =>
    simp only [runCalls, List.foldl_cons, get_logger] at *
    obtain ⟨h1, h2⟩ := configure_preserves_kinds c.env c.level st hc
    obtain ⟨h3, h4⟩ := ih _ h1
    exact ⟨h3, h4.trans h2⟩

/-- The first call from the fresh state attaches exactly the console and file
sinks and marks the state configured. -/
lemma configure_initial (env : Env) (level : Option String) :
    (_configure_root_logger env level initialLoggerState).configured = true ∧
    (_configure_root_logger env level initialLoggerState).handlers.map
      Handler.kind = [SinkKind.console, SinkKind.file] := by
  simp [_configure_root_logger, initialLoggerState]

/-- C5: across every nonempty sequence of `get_logger`/bootstrap calls
starting from the fresh state, the `delibot` logger ends with exactly the two
sinks (console then rotating file) attached exactly once: no later call adds
or re-attaches handlers. -/
theorem logger_sinks_attached_once (calls : List BootstrapCall)
    (hne : calls ≠ []) :
    (runCalls calls initialLoggerState).handlers.map Handler.kind =
      [SinkKind.console, SinkKind.file] := by
  match calls with
  | [] => exact absurd rfl hne
  | c :: cs =>
    have h0 := configure_initial c.env c.level
    have h := runCalls_preserves cs (_configure_root_logger c.env c.level
      initialLoggerState) h0.1
    simpa only [runCalls, List.foldl_cons, get_logger, h0.2] using h.2

/-- Witness for C5: two consecutive calls still leave exactly two sinks. -/
theorem logger_sinks_attached_once_witness :
    (runCalls [⟨fun _ => none, "my.module", none⟩,
      ⟨fun _ => none, "other", none⟩] initialLoggerState).handlers.map
        Handler.kind = [SinkKind.console, SinkKind.file] :=
  logger_sinks_attached_once _ (List.cons_ne_nil _ _)

/-- C6: every bootstrap call on an already-configured state re-resolves the
severity threshold from the environment and applies it to the root logger and
to every attached handler, while attaching no new handlers. -/
theorem logger_reapplies_level (env : Env) (level : Option String)
    (st : LoggerState) (hc : st.configured = true) :
    (_configure_root_logger env level st).level =
      _coerce_level (os_getenv? env "LOG_LEVEL" level) ∧
    (∀ h ∈ (_configure_root_logger env level st).handlers,
      h.level = _coerce_level (os_getenv? env "LOG_LEVEL" level)) ∧
    (_configure_root_logger env level st).handlers.map Handler.kind =
      st.handlers.map Handler.kind := by
  refine ⟨?_, ?_, (configure_preserves_kinds env level st hc).2⟩
  · simp [_configure_root_logger, hc]
  · intro h hh
    simp only [_configure_root_logger, hc, if_true, List.mem_map] at hh
    obtain ⟨h0, _, rfl⟩ := hh
    rfl

/-- Environment mapping LOG_LEVEL to ERROR. -/
def envERROR : Env := fun k => if k = "LOG_LEVEL" then some "ERROR" else none

/-- Environment mapping LOG_LEVEL to DEBUG. -/
def envDEBUG : Env := fun k => if k = "LOG_LEVEL" then some "DEBUG" else none

/-- State after a first bootstrap under `LOG_LEVEL=ERROR`. -/
def stAfterERROR : LoggerState :=
  _configure_root_logger envERROR none initialLoggerState

/-- Witness for C6: after an initial ERROR configuration, a second bootstrap
under `LOG_LEVEL=DEBUG` moves root and both sinks to DEBUG, adding none. -/
theorem logger_reapplies_level_witness :
    (_configure_root_logger envDEBUG none stAfterERROR).level =
      _coerce_level (os_getenv? envDEBUG "LOG_LEVEL" none) ∧
    (∀ h ∈ (_configure_root_logger envDEBUG none stAfterERROR).handlers,
      h.level = _coerce_level (os_getenv? envDEBUG "LOG_LEVEL" none)) ∧
    (_configure_root_logger envDEBUG none stAfterERROR).handlers.map
      Handler.kind = stAfterERROR.handlers.map Handler.kind :=
  logger_reapplies_level envDEBUG none stAfterERROR rfl

/-- C7: the name returned by `get_logger` carries the `delibot.` namespace: a
bare name is prefixed, an already-prefixed name is returned unchanged, and
prefixing is idempotent. -/
theorem get_logger_prefixing (env : Env) (level : Option String)
    (st : LoggerState) (name : String) :
    (get_logger env name level st).2 = prefixed_name name ∧
    (strStartsWith name "delibot." = false →
      prefixed_name name = "delibot." ++ name) ∧
    (strStartsWith name "delibot." = true → prefixed_name name = name) ∧
    prefixed_name (prefixed_name name) = prefixed_name name := by
  refine ⟨rfl, ?_, ?_, ?_⟩
  · intro h
    simp [prefixed_name, h]
  · intro h
    simp [prefixed_name, h]
  · cases h : strStartsWith name "delibot." with
    | true => simp [prefixed_name, h]
    | false =>
      have hpre : strStartsWith ("delibot." ++ name) "delibot." = true := by
        simp only [strStartsWith, String.data_append,
          List.isPrefixOf_iff_prefix]
        exact List.prefix_append _ _
      simp [prefixed_name, h, hpre]

/-- Witness for C7 at the bare name `"my.module"` and the prefixed name
`"delibot.my.module"`. -/
theorem get_logger_prefixing_witness :
    (get_logger (fun _ => none) "my.module" none initialLoggerState).2 =
      prefixed_name "my.module" ∧
    prefixed_name "my.module" = "delibot." ++ "my.module" ∧
    prefixed_name "delibot.my.module" = "delibot.my.module" ∧
    prefixed_name (prefixed_name "my.module") = prefixed_name "my.module" :=
  ⟨(get_logger_prefixing (fun _ => none) none initialLoggerState "my.module").1,
   (get_logger_prefixing (fun _ => none) none initialLoggerState
      "my.module").2.1 (by decide),
   (get_logger_prefixing (fun _ => none) none initialLoggerState
      "delibot.my.module").2.2.1 (by decide),
   (get_logger_prefixing (fun _ => none) none initialLoggerState
      "my.module").2.2.2⟩

/-- The recognized level names. -/
def _LEVEL_NAMES : List String :=
  ["CRITICAL", "ERROR", "WARNING", "INFO", "DEBUG", "NOTSET"]

/-- C8: an absent, empty, or unrecognized severity string (its uppercase form
outside the recognized level names) resolves to the INFO level. -/
theorem coerce_level_defaults_to_info (o : Option String)
    (h : o = none ∨ o = some "" ∨
      ∃ s, o = some s ∧ pyUpper s ∉ _LEVEL_NAMES) :
    _coerce_level o = logging.INFO := by
  rcases h with h | h | ⟨s, rfl, hs⟩
  · subst h; rfl
  · subst h; rfl
  · by_cases hse : s = ""
    · simp [_coerce_level, hse]
    · simp only [_LEVEL_NAMES, List.mem_cons, List.not_mem_nil, or_false,
        not_or] at hs
      obtain ⟨h1, h2, h3, h4, h5, h6⟩ := hs
      simp [_coerce_level, _LEVELS, hse, h1, h2, h3, h4, h5, h6]

/-- Witness for C8 at the unrecognized string `"verbose"`. -/
theorem coerce_level_defaults_to_info_witness :
    _coerce_level (some "verbose") = logging.INFO :=
  coerce_level_defaults_to_info (some "verbose")
    (Or.inr (Or.inr ⟨"verbose", rfl, by decide⟩))

end Delibot
